import Mathlib

/-!
# Verification of the financial-analyst RAG pipeline

Shallow embedding of the repository's RAG-relevant logic:

* `src/ingest.py` and `backend/services/ingest.py` — document segmenter
  (PDF elements → text chunks + table units), including a faithful model of
  LangChain's `RecursiveCharacterTextSplitter` with the repository's
  configurations (`chunk_size`/`chunk_overlap` 2000/400 resp. 1500/300,
  separators `["\n\n", "\n", " ", ""]`, `keep_separator = True`,
  `is_separator_regex = False`, `strip_whitespace = True`, length function
  `len`).
* `src/summarize.py` and `backend/services/summarize.py` — image summarizer.
* `src/rag.py` and `backend/services/rag.py` — knowledge-store builder,
  embedding-model configuration and retriever configuration.
* `backend/routers/chat.py` and `backend/routers/upload.py` — chat request
  handling (session gating, evidence surfacing) and the session status
  lifecycle.

Python strings are sequences of code points, modelled as `List Char`
(`Str`); every string operation the code uses (`split`, `strip`, `lower`,
`endswith`, slicing, joining, `in`, `sort`) is given a structural,
executable definition.  The language-model and embedding services are black
boxes, modelled as function parameters (`reply`, `chain`).  A directory's
state is `Option (List Str)` (`none` = the directory does not exist). -/

namespace FinAnalyst

/-- A Python string: its sequence of code points. -/
abbrev Str := List Char

/-- Code points of a Lean string literal. -/
def str (s : String) : Str := s.data

/-! ## Python string primitives -/

/-- Worker for `strSplitOn`: scan the text, splitting at each occurrence of
the (non-empty) pattern.  `acc` holds the current piece reversed; the fuel,
initialised to more than the text length, only bounds the recursion and is
never exhausted since every step consumes at least one character. -/
def splitOnFuel (pat : Str) : Nat → Str → Str → List Str
  | 0, rest, acc => [acc.reverse ++ rest]
  | _ + 1, [], acc => [acc.reverse]
  | fuel + 1, c :: cs, acc =>
    if pat.isPrefixOf (c :: cs) then
      acc.reverse :: splitOnFuel pat fuel (List.drop pat.length (c :: cs)) []
    else splitOnFuel pat fuel cs (c :: acc)

/-- Splitting on a literal separator: Python's `re.split(re.escape(pat), s)`
(equally `s.split(pat)`), non-overlapping leftmost occurrences. -/
def strSplitOn (s pat : Str) : List Str :=
  if pat = [] then [s] else splitOnFuel pat (s.length + 1) s []

/-- Python's `pat in s` (and `re.search` of an escaped non-empty literal). -/
def strContains (s pat : Str) : Bool :=
  if pat = [] then true else (strSplitOn s pat).length > 1

/-- Python's `s.strip()`. -/
def strTrim (s : Str) : Str :=
  ((s.dropWhile Char.isWhitespace).reverse.dropWhile Char.isWhitespace).reverse

/-- Python's `s.lower()`. -/
def strLower (s : Str) : Str := s.map Char.toLower

/-- Python's `s.endswith(pat)`. -/
def strEndsWith (s pat : Str) : Bool := pat.isSuffixOf s

/-- Python's `sep.join(pieces)`. -/
def strJoin (sep : Str) (pieces : List Str) : Str := List.intercalate sep pieces

/-- Python's `list.sort()` on strings: a stable ascending sort under the
code-point lexicographic order. -/
def pySort (l : List Str) : List Str :=
  List.insertionSort (fun a b : Str => a ≤ b) l

/-! ## RecursiveCharacterTextSplitter (LangChain), as configured by the repo

`keep_separator = True`, `is_separator_regex = False`,
`strip_whitespace = True`, `length_function = len`. -/

/-- `_split_text_with_regex text sep` with `keep_separator = True`: split
`text` on the literal separator, re-attach each separator occurrence to the
front of the piece that follows it, and drop empty pieces.  `sep = ""` gives
the list of single characters (`list(text)`). -/
def splitTextWithSeps (text sep : Str) : List Str :=
  if sep = [] then
    (text.map (fun c => [c])).filter (fun p => p ≠ [])
  else
    match strSplitOn text sep with
    | [] => []
    | p :: ps => (p :: ps.map (fun q => sep ++ q)).filter (fun p => p ≠ [])

/-- `TextSplitter._join_docs` with `strip_whitespace = True`: join with the
separator, strip, and drop the result when empty. -/
def joinDocs (docs : List Str) (sep : Str) : Option Str :=
  let text := strTrim (strJoin sep docs)
  if text = [] then none else some text

/-- The `while` loop inside `TextSplitter._merge_splits` that pops splits off
the front of the running window until the overlap budget is respected.
Returns the remaining window and its running total. -/
def popLoop (chunkSize chunkOverlap sepLen lenD : Nat) :
    List Str → Nat → List Str × Nat
  | [], total => ([], total)
  | c :: rest, total =>
    if total > chunkOverlap ∨
        (total + lenD + (if (c :: rest).length > 0 then sepLen else 0) > chunkSize
          ∧ total > 0) then
      popLoop chunkSize chunkOverlap sepLen lenD rest
        (total - (c.length + (if rest.length > 0 then sepLen else 0)))
    else (c :: rest, total)

/-- One iteration of the `for d in splits` loop of `_merge_splits`.
State: (emitted docs, current window, window length total). -/
def mergeStep (chunkSize chunkOverlap : Nat) (sep : Str)
    (st : List Str × List Str × Nat) (d : Str) :
    List Str × List Str × Nat :=
  let sepLen := sep.length
  let docs := st.1
  let cur := st.2.1
  let total := st.2.2
  let lenD := d.length
  let st2 :=
    if total + lenD + (if cur.length > 0 then sepLen else 0) > chunkSize then
      if cur.length > 0 then
        let docs2 :=
          match joinDocs cur sep with
          | some doc => docs ++ [doc]
          | none => docs
        let pop := popLoop chunkSize chunkOverlap sepLen lenD cur total
        (docs2, pop.1, pop.2)
      else (docs, cur, total)
    else (docs, cur, total)
  let docs3 := st2.1
  let cur3 := st2.2.1 ++ [d]
  let total3 := st2.2.2 + lenD + (if cur3.length > 1 then sepLen else 0)
  (docs3, cur3, total3)

/-- `TextSplitter._merge_splits`. -/
def mergeSplits (chunkSize chunkOverlap : Nat) (splits : List Str)
    (sep : Str) : List Str :=
  let st := splits.foldl (mergeStep chunkSize chunkOverlap sep) ([], [], 0)
  match joinDocs st.2.1 sep with
  | some doc => st.1 ++ [doc]
  | none => st.1

/-- The `for s in splits` body of `_split_text`: accumulate small splits,
flush them through `_merge_splits` when a too-large split arrives, and either
keep the large split verbatim (no remaining separators) or recurse on it. -/
def splitLoop (chunkSize : Nat) (hasNew : Bool)
    (recurse : Str → List Str) (mergeFn : List Str → List Str) :
    List Str → List Str → List Str
  | [], good => if good.length > 0 then mergeFn good else []
  | s :: rest, good =>
    if s.length < chunkSize then
      splitLoop chunkSize hasNew recurse mergeFn rest (good ++ [s])
    else
      (if good.length > 0 then mergeFn good else []) ++
      (if hasNew then recurse s else [s]) ++
      splitLoop chunkSize hasNew recurse mergeFn rest []

/-- `RecursiveCharacterTextSplitter._split_text`.  The Python code first
selects the splitting separator (the first separator that is empty or occurs
in the text, defaulting to the last one) and recurses on the separators after
the selected one; here that selection loop is fused into the structural
recursion over the separator list, skipping a separator that is non-empty,
absent from the text and not last.  `_split_text` is never reached with an
empty separator list (the repository's list ends in `""`, which always
matches), so the base case returns `[]`. -/
def splitTextRec (chunkSize chunkOverlap : Nat) :
    List Str → Str → List Str
  | [], _text => []
  | s :: rest, text =>
    if s = [] ∨ strContains text s ∨ rest = [] then
      let sep := if s = [] then [] else s
      let newSeps := if s ≠ [] ∧ strContains text s = true then rest else []
      let splits := splitTextWithSeps text sep
      -- keep_separator = True, so the merge separator is ""
      let mergeFn := fun good => mergeSplits chunkSize chunkOverlap good []
      splitLoop chunkSize (newSeps.length > 0)
        (fun piece => splitTextRec chunkSize chunkOverlap rest piece)
        mergeFn splits []
    else splitTextRec chunkSize chunkOverlap rest text

/-- `RecursiveCharacterTextSplitter.split_text` with the repository's
separator list `["\n\n", "\n", " ", ""]`. -/
def split_text (chunkSize chunkOverlap : Nat) (text : Str) : List Str :=
  splitTextRec chunkSize chunkOverlap [str "\n\n", str "\n", str " ", str ""] text

/-! ## Document segmenter (`src/ingest.py`, `backend/services/ingest.py`) -/

/-- One raw element from `partition_pdf`: `typeName` models
`str(type(element))`, `text` models `str(element)`. -/
structure Element where
  typeName : Str
  text : Str
deriving DecidableEq

/-- The `for element in raw_pdf_elements` loop shared by both
`load_pdf_elements` implementations: elements whose type name contains
`"Table"` are collected verbatim as table units, all other element texts are
concatenated with a trailing blank line. -/
def partitionElements (elements : List Element) : Str × List Str :=
  elements.foldl
    (fun st e =>
      if strContains e.typeName (str "Table") then (st.1, st.2 ++ [e.text])
      else (st.1 ++ e.text ++ str "\n\n", st.2))
    ([], [])

/-- `src/ingest.py::load_pdf_elements` — chunk size 2000, overlap 400,
no minimum-length filter. -/
def src_load_pdf_elements (elements : List Element) :
    List Str × List Str :=
  let part := partitionElements elements
  let text_elements := split_text 2000 400 part.1
  (text_elements, part.2)

/-- `backend/services/ingest.py::load_pdf_elements` — chunk size 1500,
overlap 300, then only chunks with `len(t) > 100` are kept. -/
def backend_load_pdf_elements (elements : List Element) :
    List Str × List Str :=
  let part := partitionElements elements
  let text_elements := split_text 1500 300 part.1
  (text_elements.filter (fun t => t.length > 100), part.2)

/-! ## Visual evidence summarizer
(`src/summarize.py`, `backend/services/summarize.py`)

The vision model is a black box `reply : Str → Str` from an image path to
the model's text reply; the directory listing is `none` when the directory
does not exist, `some files` for its (unordered) listing. -/

/-- `os.path.join(image_dir, img_file)`. -/
def osPathJoin (dir file : Str) : Str := dir ++ str "/" ++ file

/-- The per-image loop shared by both `generate_image_summaries`
implementations: append the model's reply and the image's path exactly when
the reply, stripped and lower-cased, differs from the sentinel `'skip'`. -/
def summarizeLoop (imageDir : Str) (reply : Str → Str)
    (images : List Str) : List Str × List Str :=
  images.foldl
    (fun st f =>
      let imgPath := osPathJoin imageDir f
      let content := reply imgPath
      if strLower (strTrim content) ≠ str "skip" then
        (st.1 ++ [content], st.2 ++ [imgPath])
      else st)
    ([], [])

/-- The image list `src/summarize.py` iterates over: the `.jpg` entries of
the directory listing, sorted (`images.sort()`). -/
def srcImages (files : List Str) : List Str :=
  pySort (files.filter (fun f => strEndsWith f (str ".jpg")))

/-- The image list `backend/services/summarize.py` iterates over: the
`.jpg`/`.png`/`.jpeg` entries of the directory listing, sorted. -/
def backendImages (files : List Str) : List Str :=
  pySort (files.filter
    (fun f => strEndsWith f (str ".jpg") || strEndsWith f (str ".png")
      || strEndsWith f (str ".jpeg")))

/-- `src/summarize.py::generate_image_summaries`: no existence check
(`os.listdir` raises `FileNotFoundError` on a missing directory, modelled as
`Except.error`), keeps only `.jpg` files, sorts them, then runs the loop. -/
def src_generate_image_summaries (imageDir : Str)
    (listing : Option (List Str)) (reply : Str → Str) :
    Except String (List Str × List Str) :=
  match listing with
  | none => Except.error "FileNotFoundError"
  | some files => Except.ok (summarizeLoop imageDir reply (srcImages files))

/-- `backend/services/summarize.py::generate_image_summaries`: returns two
empty lists when the directory does not exist; keeps `.jpg`, `.png`, `.jpeg`
files, sorts them, then runs the loop. -/
def backend_generate_image_summaries (imageDir : Str)
    (listing : Option (List Str)) (reply : Str → Str) :
    List Str × List Str :=
  match listing with
  | none => ([], [])
  | some files => summarizeLoop imageDir reply (backendImages files)

/-! ## Knowledge store builder (`src/rag.py`, `backend/services/rag.py`) -/

/-- A LangChain `Document`: page content plus the metadata keys this
repository uses (`source`, `image_path`). -/
structure Document where
  page_content : Str
  source : Option Str := none
  image_path : Option Str := none
deriving DecidableEq

/-- The embedding model name hard-coded in `src/rag.py::create_vector_db`. -/
def src_create_vector_db_embedding_model : String := "all-MiniLM-L6-v2"

/-- The embedding model name hard-coded in `src/rag.py::get_rag_chain`. -/
def src_get_rag_chain_embedding_model : String := "all-MiniLM-L6-v2"

/-- `backend/services/rag.py::get_embedding_function` — the singleton's
model configuration. -/
def get_embedding_function_model : String := "all-MiniLM-L6-v2"

/-- Embedding model used on the backend build path
(`create_vector_db` calls `get_embedding_function()`). -/
def backend_create_vector_db_embedding_model : String :=
  get_embedding_function_model

/-- Embedding model used on the backend query path
(`get_rag_chain` calls `get_embedding_function()`). -/
def backend_get_rag_chain_embedding_model : String :=
  get_embedding_function_model

/-- `src/rag.py::create_vector_db` — the documents handed to
`Chroma.from_documents`.  The `for summary, path in zip(...)` loop builds an
image `Document` but never appends it to `documents`, so only the text
documents reach the store. -/
def src_create_vector_db (texts image_summaries image_paths : List Str) :
    List Document :=
  let documents := texts.map
    (fun t => { page_content := t, source := some (str "text") : Document })
  -- the loop body `doc = Document(...)` has no `documents.append(doc)`
  let _dropped := (image_summaries.zip image_paths).map
    (fun sp => { page_content := sp.1, source := some (str "image"),
                 image_path := some sp.2 : Document })
  documents

/-- `backend/services/rag.py::create_vector_db` — text documents tagged
`source="text"`, then one appended image document per
`zip(image_summaries, image_paths)` pair, tagged `source="image"` with its
`image_path`.  The function has no parameter for table units. -/
def backend_create_vector_db (texts image_summaries image_paths : List Str) :
    List Document :=
  texts.map (fun t => { page_content := t, source := some (str "text") : Document })
    ++ (image_summaries.zip image_paths).map
      (fun sp => { page_content := sp.1, source := some (str "image"),
                   image_path := some sp.2 : Document })

/-- Retriever configuration (`vectorstore.as_retriever` arguments);
`lambda_mult` is recorded in tenths. -/
structure RetrieverConfig where
  search_type : String
  k : Nat
  fetch_k : Nat
  lambda_mult_tenths : Nat

/-- `backend/services/rag.py::get_rag_chain` retriever:
MMR search with `k=12`, `fetch_k=30`, `lambda_mult=0.7`. -/
def backend_retriever : RetrieverConfig :=
  { search_type := "mmr", k := 12, fetch_k := 30, lambda_mult_tenths := 7 }

/-- `src/rag.py::get_rag_chain` retriever: default similarity search with
`k=10`. -/
def src_retriever : RetrieverConfig :=
  { search_type := "similarity", k := 10, fetch_k := 10,
    lambda_mult_tenths := 10 }

/-! ## Chat router (`backend/routers/chat.py`) -/

/-- The snippet expression in the source-extraction loop of `chat`:
`doc.page_content[:300] + "..." if len(doc.page_content) > 300 else
doc.page_content`. -/
def snippet (content : Str) : Str :=
  if content.length > 300 then content.take 300 ++ str "..." else content

/-- The `SourceEvidence` response model. -/
structure SourceEvidence where
  source_type : Str
  content : Str
  image_path : Option Str := none
deriving DecidableEq

/-- One iteration of the source-extraction loop in `chat`:
`source_type = doc.metadata.get("source", "unknown")`, truncated content,
and the image path only for image-sourced documents. -/
def mkSourceEvidence (d : Document) : SourceEvidence :=
  let source_type := d.source.getD (str "unknown")
  { source_type := source_type
    content := snippet d.page_content
    image_path := if source_type = str "image" then d.image_path else none }

/-- The evidence references surfaced by `chat`: the extraction loop over the
whole retrieved context, then `sources[:5]`. -/
def chatSources (context : List Document) : List SourceEvidence :=
  (context.map mkSourceEvidence).take 5

/-- A session record (the keys of the `sessions[session_id]` dict that the
chat path reads or writes). `chat_history` entries are `(role, content)`. -/
structure Session where
  status : String
  message : String := ""
  db_path : String := ""
  chat_history : List (String × Str) := []
deriving DecidableEq

/-- The in-memory session registry `sessions`. -/
def Sessions : Type := List (String × Session)

/-- `session_id in sessions` / `sessions[session_id]`. -/
def lookupSession (ss : Sessions) (id : String) : Option Session :=
  match ss with
  | l => (List.find? (fun p => p.1 = id) l).map (fun p => p.2)

/-- Replace the stored record for `id` (mutation of `sessions[session_id]`). -/
def updateSession (ss : Sessions) (id : String) (s : Session) : Sessions :=
  match ss with
  | l => l.map (fun p => if p.1 = id then (p.1, s) else p)

/-- What the RAG chain invocation returns on success: the contract of
`create_retrieval_chain` (an `answer` plus the retrieved `context`). -/
structure ChainOutput where
  answer : Str
  context : List Document

/-- The fallible part of a chat request: `get_rag_chain(db_path)` plus the
chain invocation on the user message — any exception is `Except.error`. -/
def ChainFn : Type := String → Str → Except String ChainOutput

/-- A chat request body. -/
structure ChatRequestBody where
  session_id : String
  message : Str

/-- The outcome of the `chat` endpoint. -/
inductive ChatResult where
  | notFound
  | stateMismatch (status : String)
  | internalError (msg : String)
  | answered (answer : Str) (sources : List SourceEvidence)
deriving DecidableEq

/-- HTTP status code of each outcome: 404 for an unknown session, 400 for a
session that is not ready, 500 for a failed request, 200 for success. -/
def httpStatus : ChatResult → Nat
  | .notFound => 404
  | .stateMismatch _ => 400
  | .internalError _ => 500
  | .answered _ _ => 200

/-- The history mutation performed after a successful chain invocation:
append the user turn and the assistant turn to `session["chat_history"]`. -/
def appendTurns (s : Session) (message answer : Str) : Session :=
  { s with chat_history :=
      s.chat_history ++ [("user", message), ("assistant", answer)] }

/-- The body of the `try` block of `chat` for a ready session: invoke the
chain; on failure raise HTTP 500 with the exception text and leave the
registry untouched; on success record both turns and answer with the capped
sources. -/
def chatRetrieve (ss : Sessions) (req : ChatRequestBody) (chain : ChainFn)
    (s : Session) : ChatResult × Sessions :=
  match chain s.db_path req.message with
  | .error e => (.internalError e, ss)
  | .ok out =>
    (.answered out.answer (chatSources out.context),
      updateSession ss req.session_id (appendTurns s req.message out.answer))

/-- `backend/routers/chat.py::chat`: 404 when the session id is unknown,
400 when the session's status is not `"ready"`, otherwise run the RAG
chain. -/
def chat (ss : Sessions) (req : ChatRequestBody) (chain : ChainFn) :
    ChatResult × Sessions :=
  match lookupSession ss req.session_id with
  | none => (.notFound, ss)
  | some s =>
    if s.status ≠ "ready" then (.stateMismatch s.status, ss)
    else chatRetrieve ss req chain s

/-! ## Session lifecycle (`backend/routers/upload.py`) -/

/-- The status assigned when `upload_pdf` creates the session. -/
def upload_initial_status : String := "uploading"

/-- The statuses assigned by `process_pdf_background`, in order:
`"processing"` at the start of the `try` block, then `"ready"` on success or
`"error"` in the `except` handler.  The ingestion pipeline outcome is the
black-box parameter. -/
def bg_status_trace (pipeline : Except String Unit) : List String :=
  "processing" :: (match pipeline with
    | .ok _ => ["ready"]
    | .error _ => ["error"])

/-- The whole sequence of status values a session passes through: the
`upload_pdf` initialisation followed by the background task's updates. -/
def session_status_trace (pipeline : Except String Unit) : List String :=
  upload_initial_status :: bg_status_trace pipeline

/-- The status transitions present in the code: `upload_pdf` hands
`"uploading"` sessions to the background task, which moves them to
`"processing"` and then to `"ready"` or `"error"`. -/
def allowedTransitions : List (String × String) :=
  [("uploading", "processing"), ("processing", "ready"),
   ("processing", "error")]

/-- `process_pdf_background` builds the store from the call
`create_vector_db(texts, img_summaries, img_paths, db_path)` — the `tables`
component of `load_pdf_elements`'s result is never passed on. -/
def process_pdf_store (elements : List Element) (imageDir : Str)
    (listing : Option (List Str)) (reply : Str → Str) :
    List Document :=
  let te := backend_load_pdf_elements elements
  let texts := te.1
  let si := backend_generate_image_summaries imageDir listing reply
  backend_create_vector_db texts si.1 si.2

/-- The images the summarizer loop retains: those whose model reply,
stripped and lower-cased, is not the sentinel `'skip'`. -/
def keptImages (imageDir : Str) (reply : Str → Str) (images : List Str) :
    List Str :=
  images.filter
    (fun f => strLower (strTrim (reply (osPathJoin imageDir f))) ≠ str "skip")

/-! ## Theorems -/

theorem summarizeLoop_eq (imageDir : Str) (reply : Str → Str)
    (images : List Str) :
    summarizeLoop imageDir reply images =
      ((keptImages imageDir reply images).map
          (fun f => reply (osPathJoin imageDir f)),
        (keptImages imageDir reply images).map
          (fun f => osPathJoin imageDir f)) := by
  suffices h : ∀ (acc : List Str × List Str),
      images.foldl
        (fun st f =>
          let imgPath := osPathJoin imageDir f
          let content := reply imgPath
          if strLower (strTrim content) ≠ str "skip" then
            (st.1 ++ [content], st.2 ++ [imgPath])
          else st) acc =
      (acc.1 ++ (keptImages imageDir reply images).map
          (fun f => reply (osPathJoin imageDir f)),
        acc.2 ++ (keptImages imageDir reply images).map
          (fun f => osPathJoin imageDir f)) by
    have := h ([], [])
    simpa [summarizeLoop] using this
  induction images with
  | nil => intro acc; simp [keptImages]
  | cons f fs ih =>
    intro acc
    by_cases hf : strLower (strTrim (reply (osPathJoin imageDir f))) ≠ str "skip"
    · simp only [List.foldl_cons, if_pos hf]
      rw [ih]
      simp [keptImages, hf]
    · simp only [List.foldl_cons, if_neg hf]
      rw [ih]
      simp [keptImages, hf]

/-- C1: the knowledge-store builder does not store every input unit.  A parse
producing one 150-character prose element and one table element yields the
table unit `"Revenue 100"` from the segmenter, yet the store built by
`process_pdf_background` contains only the text document — no stored unit
carries the table's content, because `create_vector_db` takes no table
argument.  Moreover `src/rag.py::create_vector_db` builds image documents
without appending them, so an image summary never reaches the store there. -/
theorem c1_units_dropped_from_store :
    (backend_load_pdf_elements
        [⟨str "Text", List.replicate 150 'a'⟩,
         ⟨str "unstructured.documents.elements.Table", str "Revenue 100"⟩]).2
      = [str "Revenue 100"]
    ∧ process_pdf_store
        [⟨str "Text", List.replicate 150 'a'⟩,
         ⟨str "unstructured.documents.elements.Table", str "Revenue 100"⟩]
        (str "imgs") (some []) (fun _ => [])
      = [{ page_content := List.replicate 150 'a', source := some (str "text") }]
    ∧ (str "Revenue 100") ∉
        (process_pdf_store
          [⟨str "Text", List.replicate 150 'a'⟩,
           ⟨str "unstructured.documents.elements.Table", str "Revenue 100"⟩]
          (str "imgs") (some []) (fun _ => [])).map Document.page_content
    ∧ src_create_vector_db [] [str "a bar chart"] [str "imgs/a.jpg"] = [] := by
  refine ⟨?_, ?_, ?_, ?_⟩ <;> · set_option maxRecDepth 100000 in decide

/-- C2: the embedding model used to build the knowledge store and the
embedding model used when reopening it for query-time retrieval are the same
fixed configuration, on the backend path (both sides call
`get_embedding_function`) and on the src path (both sides construct
`HuggingFaceEmbeddings(model_name="all-MiniLM-L6-v2")`). -/
theorem c2_embedding_model_consistency :
    backend_create_vector_db_embedding_model
        = backend_get_rag_chain_embedding_model
    ∧ src_create_vector_db_embedding_model
        = src_get_rag_chain_embedding_model
    ∧ backend_create_vector_db_embedding_model
        = src_create_vector_db_embedding_model :=
  ⟨rfl, rfl, rfl⟩

/-- C3 counterexample: the `src/ingest.py` segmenter has no minimum-length
filter — a document with a single short prose element yields the chunk
`"short"` (5 characters, below the 100-character threshold) in its output. -/
theorem c3_counterexample :
    (src_load_pdf_elements [⟨str "NarrativeText", str "short"⟩]).1
      = [str "short"]
    ∧ (str "short").length < 100 := by
  constructor
  · decide
  · decide

/-- C3 (amended): the backend segmenter discards chunks with `len(t) <= 100`,
so every text chunk it returns is longer than 100 characters; the legacy
`src/ingest.py` segmenter applies no such filter. -/
theorem c3_backend_min_length (elements : List Element) (t : Str)
    (h : t ∈ (backend_load_pdf_elements elements).1) : 100 < t.length := by
  simp only [backend_load_pdf_elements] at h
  have := (List.mem_filter.mp h).2
  simpa using this

set_option maxRecDepth 100000 in
/-- Witness for C3: a 150-character chunk appears in the backend segmenter's
output and the theorem yields its length bound. -/
theorem c3_witness : 100 < (List.replicate 150 'a' : Str).length :=
  c3_backend_min_length [⟨str "Text", List.replicate 150 'a'⟩]
    (List.replicate 150 'a') (by decide)

/-- C7 counterexample: `src/summarize.py::generate_image_summaries` raises
(`os.listdir` on a missing directory) instead of returning two empty
sequences when the image directory does not exist. -/
theorem c7_counterexample :
    src_generate_image_summaries (str "imgs") none (fun _ => [])
      = Except.error "FileNotFoundError" := rfl

/-- C7 (amended): the backend summarizer returns two empty sequences — not an
error — when the image directory does not exist or contains no images, and
the src summarizer does so for an existing empty directory; but the src
summarizer errors when the directory does not exist. -/
theorem c7_empty_inputs (dir : Str) (reply : Str → Str) :
    backend_generate_image_summaries dir none reply = ([], [])
    ∧ backend_generate_image_summaries dir (some []) reply = ([], [])
    ∧ src_generate_image_summaries dir (some []) reply = .ok ([], []) :=
  ⟨rfl, rfl, rfl⟩

/-- C9 counterexample: a freshly created session carries the status
`"uploading"` (observable through the status endpoint before the background
task starts), which is none of the spec's four machine states. -/
theorem c9_counterexample :
    "uploading" ∈ session_status_trace (.ok ())
    ∧ "uploading" ∉ ["uninitialized", "processing", "ready", "error"] := by
  constructor
  · decide
  · decide

/-- C9 (amended): every status a session passes through is one of
`"uploading"` (the code's realisation of the spec's initial state),
`"processing"`, `"ready"`, `"error"`; the trace moves only along
`uploading → processing → ready | error`; no transition leaves `"ready"` or
`"error"`; and a chat request on a session whose status is not `"ready"` is
rejected with the state-mismatch signal. -/
theorem c9_lifecycle (pipeline : Except String Unit) :
    session_status_trace pipeline ∈
        [["uploading", "processing", "ready"],
         ["uploading", "processing", "error"]]
    ∧ List.Chain' (fun a b => (a, b) ∈ allowedTransitions)
        (session_status_trace pipeline)
    ∧ (∀ st ∈ session_status_trace pipeline,
        st ∈ ["uploading", "processing", "ready", "error"])
    ∧ (∀ b, ("ready", b) ∉ allowedTransitions
        ∧ ("error", b) ∉ allowedTransitions)
    ∧ (∀ (ss : Sessions) (req : ChatRequestBody) (chain : ChainFn)
        (s : Session), lookupSession ss req.session_id = some s →
          s.status ≠ "ready" →
          (chat ss req chain).1 = .stateMismatch s.status) := by
  refine ⟨?_, ?_, ?_, ?_, ?_⟩
  · cases pipeline <;>
      simp [session_status_trace, bg_status_trace, upload_initial_status]
  · cases pipeline <;>
      simp [session_status_trace, bg_status_trace, upload_initial_status,
        allowedTransitions]
  · cases pipeline <;>
      · intro st hst
        simp [session_status_trace, bg_status_trace,
          upload_initial_status] at hst
        rcases hst with h | h | h <;> simp [h]
  · intro b
    constructor
    · simp [allowedTransitions]
    · simp [allowedTransitions]
  · intro ss req chain s hs hst
    simp [chat, hs, hst]

/-- Witness for C9: a chat request against a concrete `"processing"` session
is rejected with the state-mismatch signal. -/
theorem c9_witness :
    (chat [("a", { status := "processing" })]
        ⟨"a", str "what was revenue"⟩ (fun _ _ => .error "unused")).1
      = .stateMismatch "processing" :=
  (c9_lifecycle (.ok ())).2.2.2.2 [("a", { status := "processing" })]
    ⟨"a", str "what was revenue"⟩ (fun _ _ => .error "unused")
    { status := "processing" } (by decide) (by decide)

/-- C10: the content snippet surfaced for an evidence reference is the full
page content when it has at most 300 characters, and otherwise exactly its
first 300 characters followed by `"..."`; every surfaced snippet has length
at most 303. -/
theorem c10_snippet (d : Document) :
    (mkSourceEvidence d).content = snippet d.page_content
    ∧ (d.page_content.length ≤ 300 →
        (mkSourceEvidence d).content = d.page_content)
    ∧ (300 < d.page_content.length →
        (mkSourceEvidence d).content = d.page_content.take 300 ++ str "..."
        ∧ (mkSourceEvidence d).content.length = 303)
    ∧ (mkSourceEvidence d).content.length ≤ 303 := by
  have hc : (mkSourceEvidence d).content = snippet d.page_content := rfl
  by_cases h : 300 < d.page_content.length
  · have hs : snippet d.page_content = d.page_content.take 300 ++ str "..." := by
      simp [snippet, h]
    have hlen : (snippet d.page_content).length = 303 := by
      rw [hs]
      simp [List.length_take, str]
      omega
    refine ⟨hc, ?_, ?_, ?_⟩
    · intro hle; omega
    · intro _; exact ⟨hc.trans hs, hc ▸ hlen⟩
    · rw [hc, hlen]
  · have hle : d.page_content.length ≤ 300 := by omega
    have hs : snippet d.page_content = d.page_content := by
      simp [snippet, h]
    refine ⟨hc, fun _ => hc.trans hs, ?_, ?_⟩
    · intro hgt; omega
    · rw [hc, hs]; omega

set_option maxRecDepth 100000 in
/-- Witness for C10: a 301-character content is truncated to a 303-character
snippet, and a 3-character content is surfaced verbatim. -/
theorem c10_witness :
    (mkSourceEvidence { page_content := List.replicate 301 'a' }).content.length
        = 303
    ∧ (mkSourceEvidence { page_content := str "abc" }).content = str "abc" :=
  ⟨((c10_snippet { page_content := List.replicate 301 'a' }).2.2.1
      (by decide)).2,
    (c10_snippet { page_content := str "abc" }).2.1 (by decide)⟩

/-- C4: a chat request for an unknown session id is rejected with the
not-found signal (HTTP 404); a request for a known session whose status is
not `"ready"` is rejected with the state-mismatch signal (HTTP 400, distinct
from 404) and the outcome does not depend on the RAG chain — the store is
never queried; only for a `"ready"` session does the request proceed to
retrieval. -/
theorem c4_chat_gating (ss : Sessions) (req : ChatRequestBody)
    (chain : ChainFn) :
    (lookupSession ss req.session_id = none →
        chat ss req chain = (.notFound, ss))
    ∧ (∀ s : Session, lookupSession ss req.session_id = some s →
        s.status ≠ "ready" →
          chat ss req chain = (.stateMismatch s.status, ss)
          ∧ (∀ chain2 : ChainFn, chat ss req chain2 = chat ss req chain))
    ∧ (∀ s : Session, lookupSession ss req.session_id = some s →
        s.status = "ready" →
          chat ss req chain = chatRetrieve ss req chain s)
    ∧ httpStatus .notFound = 404
    ∧ (∀ st, httpStatus (.stateMismatch st) = 400) := by
  refine ⟨?_, ?_, ?_, rfl, fun _ => rfl⟩
  · intro h; simp [chat, h]
  · intro s hs hst
    exact ⟨by simp [chat, hs, hst], fun chain2 => by simp [chat, hs, hst]⟩
  · intro s hs hr
    simp [chat, hs, hr]

/-- Witness for C4: on a concrete registry, an unknown id yields not-found, a
`"processing"` session yields state-mismatch, and a `"ready"` session
proceeds to retrieval. -/
theorem c4_witness :
    chat [("a", { status := "processing" }),
          ("b", { status := "ready", db_path := "p" })]
        ⟨"z", str "q"⟩ (fun _ _ => .error "boom")
      = (.notFound,
         [("a", { status := "processing" }),
          ("b", { status := "ready", db_path := "p" })])
    ∧ chat [("a", { status := "processing" }),
            ("b", { status := "ready", db_path := "p" })]
        ⟨"a", str "q"⟩ (fun _ _ => .error "boom")
      = (.stateMismatch "processing",
         [("a", { status := "processing" }),
          ("b", { status := "ready", db_path := "p" })])
    ∧ chat [("a", { status := "processing" }),
            ("b", { status := "ready", db_path := "p" })]
        ⟨"b", str "q"⟩ (fun _ _ => .error "boom")
      = chatRetrieve
          [("a", { status := "processing" }),
           ("b", { status := "ready", db_path := "p" })]
          ⟨"b", str "q"⟩ (fun _ _ => .error "boom")
          { status := "ready", db_path := "p" } :=
  ⟨(c4_chat_gating _ _ _).1 (by decide),
    ((c4_chat_gating _ _ _).2.1 { status := "processing" }
      (by decide) (by decide)).1,
    (c4_chat_gating _ _ _).2.2.1 { status := "ready", db_path := "p" }
      (by decide) (by decide)⟩

/-- C5: on a ready session, a failure anywhere in the chain (query rewrite,
retrieval or generation all happen inside the single fallible invocation)
surfaces as one opaque HTTP 500 failure carrying the exception text, and the
session registry — status and stored conversation history included — is
returned unchanged, so subsequent questions may still succeed. -/
theorem c5_failure_preserves_session (ss : Sessions) (req : ChatRequestBody)
    (chain : ChainFn) (s : Session) (e : String)
    (hs : lookupSession ss req.session_id = some s)
    (hr : s.status = "ready")
    (he : chain s.db_path req.message = .error e) :
    chat ss req chain = (.internalError e, ss)
    ∧ httpStatus (ChatResult.internalError e) = 500 := by
  constructor
  · simp [chat, hs, hr, chatRetrieve, he]
  · rfl

/-- Witness for C5: a concrete ready session with a failing chain yields the
opaque failure and an unchanged registry. -/
theorem c5_witness :
    chat [("b", { status := "ready", db_path := "p",
                  chat_history := [("user", str "hi")] })]
        ⟨"b", str "q"⟩ (fun _ _ => .error "model unreachable")
      = (.internalError "model unreachable",
         [("b", { status := "ready", db_path := "p",
                  chat_history := [("user", str "hi")] })]) :=
  (c5_failure_preserves_session _ _ _
    { status := "ready", db_path := "p",
      chat_history := [("user", str "hi")] }
    "model unreachable" (by decide) (by decide) (by rfl)).1

/-- C6: for every run of either summarizer over an existing directory, the
returned summaries and source paths have the same length, are exactly the
reply/path of each image whose reply — stripped, lower-cased — differs from
the sentinel `"skip"`, and the images are processed in filename-sorted
order. -/
theorem c6_summarizer_pairing (imageDir : Str) (listing : List Str)
    (reply : Str → Str) :
    (backend_generate_image_summaries imageDir (some listing) reply).1.length
      = (backend_generate_image_summaries imageDir (some listing) reply).2.length
    ∧ (backend_generate_image_summaries imageDir (some listing) reply).1
      = (keptImages imageDir reply (backendImages listing)).map
          (fun f => reply (osPathJoin imageDir f))
    ∧ (backend_generate_image_summaries imageDir (some listing) reply).2
      = (keptImages imageDir reply (backendImages listing)).map
          (fun f => osPathJoin imageDir f)
    ∧ List.Sorted (fun a b : Str => a ≤ b) (backendImages listing)
    ∧ (∀ res, src_generate_image_summaries imageDir (some listing) reply
        = Except.ok res → res.1.length = res.2.length)
    ∧ List.Sorted (fun a b : Str => a ≤ b) (srcImages listing) := by
  have hb : backend_generate_image_summaries imageDir (some listing) reply
      = summarizeLoop imageDir reply (backendImages listing) := rfl
  have h := summarizeLoop_eq imageDir reply (backendImages listing)
  have h2 := summarizeLoop_eq imageDir reply (srcImages listing)
  refine ⟨?_, ?_, ?_, ?_, ?_, ?_⟩
  · rw [hb, h]; simp
  · rw [hb, h]
  · rw [hb, h]
  · exact List.sorted_insertionSort _ _
  · intro res hres
    have : res = summarizeLoop imageDir reply (srcImages listing) := by
      simpa [src_generate_image_summaries] using hres.symm
    rw [this, h2]
    simp
  · exact List.sorted_insertionSort _ _

/-- Witness for C6: one concrete `.jpg` image whose reply is kept — the src
summarizer's success value has equally long summary and path sequences. -/
theorem c6_witness :
    (summarizeLoop (str "d") (fun _ => str "good")
        (srcImages [str "a.jpg"])).1.length
      = (summarizeLoop (str "d") (fun _ => str "good")
          (srcImages [str "a.jpg"])).2.length :=
  (c6_summarizer_pairing (str "d") [str "a.jpg"]
    (fun _ => str "good")).2.2.2.2.1
    (summarizeLoop (str "d") (fun _ => str "good") (srcImages [str "a.jpg"]))
    (by rfl)

/-- C8: the evidence references surfaced by a successful chat response are
capped at 5 — exactly the first 5 extracted references when more than 5
documents were retrieved — each carrying its source type, truncated content
and, for image sources, the image path; independently, the backend retriever
is configured to supply `k = 12` documents to the model. -/
theorem c8_sources_cap (context : List Document) :
    (chatSources context).length ≤ 5
    ∧ (5 < context.length →
        chatSources context = (context.take 5).map mkSourceEvidence)
    ∧ (∀ d : Document,
        (mkSourceEvidence d).source_type = d.source.getD (str "unknown")
        ∧ (mkSourceEvidence d).image_path =
            (if d.source.getD (str "unknown") = str "image"
              then d.image_path else none))
    ∧ backend_retriever.k = 12 := by
  refine ⟨?_, ?_, fun d => ⟨rfl, rfl⟩, rfl⟩
  · simp only [chatSources, List.length_take]
    omega
  · intro _
    simp [chatSources, List.map_take]

/-- Witness for C8: with six retrieved documents, the surfaced references are
exactly the first five extracted ones. -/
theorem c8_witness :
    chatSources (List.replicate 6 ({ page_content := str "x" } : Document))
      = ((List.replicate 6
          ({ page_content := str "x" } : Document)).take 5).map
            mkSourceEvidence :=
  (c8_sources_cap _).2.1 (by decide)

end FinAnalyst
